import Mathlib

/-!
Shallow embedding of the frontend orchestration logic of the repository:
the upload/ingest and delete handlers of `src/FE/src/pages/Home.jsx`, the
chat send and session-clear handlers of `src/FE/src/pages/Chat.jsx`, and
the request shapes built by `src/FE/src/api/agent.js`, `src/FE/src/api/pdf.js`
and the embedding-service client.  Each handler is modelled as a pure
function from the component state plus the resolutions of the network calls
it awaits, to the final component state, the ordered list of requests it
issued, and its user-visible outcome.
-/

namespace Spec2Proof

/-- A JavaScript error object as the axios clients surface it: the
handlers only read `error.message`. -/
structure NetError where
  message : String
deriving Repr, DecidableEq

/-- One collection entry as returned by the indexing service listing;
only `name` is read by the handlers (`books.map(book => book.name)`). -/
structure Collection where
  name : String
deriving Repr, DecidableEq

/-- The response body of GET /embedding/collections:
`{ total: N, collections: [...] }`.  `collections` is optional because
`Home.jsx` guards with `data.collections || []`. -/
structure ListResponse where
  total : Nat
  collections : Option (List Collection)
deriving Repr, DecidableEq

/-- The selected file in the upload modal: the handlers read
`selectedFile.name` and `selectedFile.size`. -/
structure JsFile where
  name : String
  size : Nat
deriving Repr, DecidableEq

/-- The network requests the frontend clients can issue, with the fields
each client function actually sends (from `pdf.js`, `agent.js` and the
embedding-service client). -/
inductive Request where
  | uploadPdf (fileName : String) (fileSize : Nat) (userId : String)
  | indexBook (bookName : String) (userId : String) (forceReindex : Bool)
  | listCollections
  | deleteCollection (name : String)
  | deleteProcessedBook (bookName : String) (userId : String)
  | chat (userId : String) (sessionId : String) (query : String) (dbName : Option String)
  | deleteSession (userId : String) (sessionId : String)
deriving Repr, DecidableEq

/-- `true` when `pat` occurs at the very start of `s`, as JavaScript
`String.prototype.replace` tests at each scan position. -/
def matchesHere : List Char → List Char → Bool
  | [], _ => true
  | _ :: _, [] => false
  | p :: ps, c :: cs => p = c && matchesHere ps cs

/-- JavaScript `s.replace(pat, repl)` with a string pattern: replaces only
the first occurrence of `pat`, returns `s` unchanged when there is none. -/
def jsReplaceOnceList (pat repl : List Char) : List Char → List Char
  | [] => []
  | c :: cs =>
      if matchesHere pat (c :: cs) then repl ++ List.drop pat.length (c :: cs)
      else c :: jsReplaceOnceList pat repl cs

/-- String version of `jsReplaceOnceList`; embeds
`selectedFile.name.replace('.pdf', '')` from `Home.jsx`. -/
def jsReplaceOnce (s pat repl : String) : String :=
  ⟨jsReplaceOnceList pat.data repl.data s.data⟩

/-- JavaScript `s.trim()`: the string with leading and trailing whitespace
removed (used only through its emptiness test `!input.trim()`). -/
def jsTrim (s : String) : String :=
  ⟨((s.data.dropWhile Char.isWhitespace).reverse.dropWhile Char.isWhitespace).reverse⟩

/-- The user-visible outcome of `handleUpload`: the early `return` when no
file or no identity is present, success, or the single generic
`alert('Upload failed: ' + error.message)` path taken by the catch block. -/
inductive UploadOutcome where
  | noop
  | success
  | genericFailure (alertMessage : String)
deriving Repr, DecidableEq

/-- The outcome of `handleDelete`: cancelled at the confirm dialog,
success, or the single generic `console.error('Delete failed:', error)`
path taken by the catch block (carrying the error's message). -/
inductive DeleteOutcome where
  | cancelled
  | success
  | genericFailure (loggedMessage : String)
deriving Repr, DecidableEq

/-- The state of the `Home` component that `handleUpload`, `handleDelete`
and `fetchBooks` read or write. -/
structure HomeState where
  books : List Collection
  loading : Bool
  isUploadModalOpen : Bool
  uploading : Bool
  selectedFile : Option JsFile
deriving Repr, DecidableEq

/-- `fetchBooks` from `Home.jsx`: sets `loading`, awaits
`embeddingService.listCollections()`, stores `data.collections || []` on
success, only logs on failure, and clears `loading` in the `finally`. -/
def fetchBooks (st : HomeState) (listResult : Except NetError ListResponse) : HomeState :=
  match listResult with
  | Except.ok data => { st with books := data.collections.getD [], loading := false }
  | Except.error _ => { st with loading := false }

/-- `handleUpload` from `Home.jsx`, lines 46-82.  Arguments beyond the
state: the identity from `useAuth`, and the resolutions of the three
awaited calls (`pdfService.uploadPdf`, `embeddingService.indexBook`, and
the `listCollections` call made by the fire-and-forget `fetchBooks()` on
the success path).  Returns the settled state, the ordered requests
issued, and the outcome. -/
def handleUpload (st : HomeState) (userId : String)
    (uploadResult : Except NetError Unit)
    (indexResult : Except NetError Unit)
    (listResult : Except NetError ListResponse) :
    HomeState × List Request × UploadOutcome :=
  match st.selectedFile with
  | none => (st, [], UploadOutcome.noop)
  | some file =>
    if userId = "" then (st, [], UploadOutcome.noop)
    else
      let uploadReq := Request.uploadPdf file.name file.size userId
      match uploadResult with
      | Except.error e =>
          ({ st with uploading := false }, [uploadReq],
           UploadOutcome.genericFailure ("Upload failed: " ++ e.message))
      | Except.ok _ =>
          let bookName := jsReplaceOnce file.name ".pdf" ""
          let indexReq := Request.indexBook bookName userId false
          match indexResult with
          | Except.error e =>
              ({ st with uploading := false }, [uploadReq, indexReq],
               UploadOutcome.genericFailure ("Upload failed: " ++ e.message))
          | Except.ok _ =>
              (fetchBooks
                 { st with isUploadModalOpen := false, selectedFile := none, uploading := false }
                 listResult,
               [uploadReq, indexReq, Request.listCollections],
               UploadOutcome.success)

/-- `handleDelete` from `Home.jsx`, lines 84-95.  Arguments beyond the
state: the book name, the identity, the result of the `confirm` dialog,
and the resolutions of the awaited calls
(`embeddingService.deleteCollection`, `pdfService.deleteProcessedBook`,
and the `listCollections` call of the trailing `fetchBooks()`). -/
def handleDelete (st : HomeState) (bookName userId : String) (confirmResult : Bool)
    (deleteCollectionResult deleteProcessedResult : Except NetError Unit)
    (listResult : Except NetError ListResponse) :
    HomeState × List Request × DeleteOutcome :=
  if !confirmResult then (st, [], DeleteOutcome.cancelled)
  else
    let collectionReq := Request.deleteCollection bookName
    match deleteCollectionResult with
    | Except.error e => (st, [collectionReq], DeleteOutcome.genericFailure e.message)
    | Except.ok _ =>
        let processedReq := Request.deleteProcessedBook bookName userId
        match deleteProcessedResult with
        | Except.error e =>
            (st, [collectionReq, processedReq], DeleteOutcome.genericFailure e.message)
        | Except.ok _ =>
            (fetchBooks st listResult,
             [collectionReq, processedReq, Request.listCollections],
             DeleteOutcome.success)

/-- One chat transcript entry: `{ role, content, artifacts? }` as built in
`Chat.jsx`; artifacts are passed through uninterpreted, modelled as opaque
strings. -/
structure ChatMessage where
  role : String
  content : String
  artifacts : Option (List String) := none
deriving Repr, DecidableEq

/-- The response body of POST /agent/chat: `{ response, artifacts }`. -/
structure AgentResponse where
  response : String
  artifacts : Option (List String)
deriving Repr, DecidableEq

/-- The state of the `Chat` component that `handleSend` and
`handleClearSession` read or write. -/
structure ChatState where
  userId : String
  messages : List ChatMessage
  input : String
  loading : Bool
  selectedCollection : Option String
deriving Repr, DecidableEq

/-- `handleSend` from `Chat.jsx`, lines 42-75: rejects a blank (trimmed
empty) input or a not-yet-available identity; otherwise optimistically
appends the user message, clears the input, issues
`agentService.chat(userId, userId, content, selectedCollection)`, and
appends either the assistant reply or the synthetic system failure
message. -/
def handleSend (st : ChatState) (chatResult : Except NetError AgentResponse) :
    ChatState × List Request :=
  if jsTrim st.input = "" || st.userId = "" then (st, [])
  else
    let userMessage : ChatMessage := { role := "user", content := st.input }
    let st1 := { st with
      messages := st.messages ++ [userMessage], input := "", loading := true }
    let req := Request.chat st.userId st.userId userMessage.content st.selectedCollection
    match chatResult with
    | Except.ok resp =>
        ({ st1 with
            messages := st1.messages ++
              [{ role := "assistant", content := resp.response, artifacts := resp.artifacts }],
            loading := false },
         [req])
    | Except.error _ =>
        ({ st1 with
            messages := st1.messages ++
              [{ role := "system", content := "Error: Failed to get response from agent." }],
            loading := false },
         [req])

/-- `handleClearSession` from `Chat.jsx`, lines 77-85: confirm dialog,
then `await agentService.deleteSession(userId, userId)` followed by
`setMessages([])` inside the same try block; the catch only logs. -/
def handleClearSession (st : ChatState) (confirmResult : Bool)
    (deleteResult : Except NetError Unit) : ChatState × List Request :=
  if !confirmResult then (st, [])
  else
    let req := Request.deleteSession st.userId st.userId
    match deleteResult with
    | Except.ok _ => ({ st with messages := [] }, [req])
    | Except.error _ => (st, [req])

/-- Modelled from the spec: the indexing service's collection store and its
DELETE /embedding/collection/{name} operation (the backend is not under
src/).  Per the spec, deleting a collection removes the entry with that
name from the service's store. -/
def indexingDeleteCollection (collections : List Collection) (name : String) :
    List Collection :=
  collections.filter (fun c => c.name ≠ name)

/-- Modelled from the spec: GET /embedding/collections returns every
collection currently in the indexing service's store (the sole source of
truth for the catalog). -/
def indexingListCollections (collections : List Collection) : List Collection :=
  collections

/-- Spec-side definition, from the spec's words only (for comparison with
the source's name derivation): "a provisional book_name from the filename
with its extension stripped" — everything before the final dot, the name
unchanged when it contains no dot. -/
def specStripExtension (fileName : String) : String :=
  if fileName.data.contains '.' then
    ⟨((fileName.data.reverse.dropWhile (fun c => c ≠ '.')).drop 1).reverse⟩
  else fileName

/-! Concrete component states used to instantiate the theorems. -/

/-- A `Home` state with the file `physics.pdf` selected in the modal. -/
def physicsState : HomeState :=
  { books := [], loading := false, isUploadModalOpen := true, uploading := false,
    selectedFile := some { name := "physics.pdf", size := 1024 } }

/-- A `Home` state with a selected file whose name contains the substring
".pdf" before the final extension. -/
def oddNameState : HomeState :=
  { books := [], loading := false, isUploadModalOpen := true, uploading := false,
    selectedFile := some { name := "a.pdfb.pdf", size := 7 } }

/-- A `Home` state with a selected file of size zero (an empty file). -/
def zeroByteState : HomeState :=
  { books := [], loading := false, isUploadModalOpen := true, uploading := false,
    selectedFile := some { name := "empty.pdf", size := 0 } }

/-- A `Home` state with no file selected in the modal. -/
def noFileState : HomeState :=
  { books := [], loading := false, isUploadModalOpen := true, uploading := false,
    selectedFile := none }

/-- An empty-collection listing response. -/
def emptyListing : Except NetError ListResponse :=
  Except.ok { total := 0, collections := some [] }

/-- A `Chat` state with one prior message, a typed question, and the
collection "bookA" selected as context. -/
def chatStateA : ChatState :=
  { userId := "user1",
    messages := [{ role := "user", content := "hello" }],
    input := "What is a pole?", loading := false,
    selectedCollection := some "bookA" }

/-- The same `Chat` state as `chatStateA` but with no collection selected
(general knowledge). -/
def chatStateNone : ChatState :=
  { userId := "user1",
    messages := [{ role := "user", content := "hello" }],
    input := "What is a pole?", loading := false,
    selectedCollection := none }

/-! ## C1: classification of an indexing failure after a successful upload -/

/-- Claim C1 counterexample: in the run where the upload succeeds and the
index-book call fails, `handleUpload` classifies the outcome through the
single generic alert path — exactly the same outcome value an upload-stage
failure with the same error produces — so there is no distinct
PartialIngestion state, refuting the claim at this concrete input. -/
theorem c1_counterexample :
    (handleUpload physicsState "user1" (Except.ok ())
        (Except.error { message := "boom" }) emptyListing).2.2
      = UploadOutcome.genericFailure "Upload failed: boom"
    ∧ (handleUpload physicsState "user1" (Except.ok ())
        (Except.error { message := "boom" }) emptyListing).2.2
      = (handleUpload physicsState "user1" (Except.error { message := "boom" })
          (Except.ok ()) emptyListing).2.2 := by
  constructor <;> rfl

/-- Claim C1 (amended): in every run where the upload succeeds and the
index-book call fails, the handler takes the generic catch path: the
outcome is the same `alert`-based generic failure used for an upload
failure (no distinct PartialIngestion state), the book list and the rest
of the state are unchanged except that the uploading flag settles to
false, and no catalog refresh request is issued in that run. -/
theorem c1_amended (st : HomeState) (userId : String) (f : JsFile) (e : NetError)
    (lr : Except NetError ListResponse)
    (hf : st.selectedFile = some f) (hu : userId ≠ "") :
    handleUpload st userId (Except.ok ()) (Except.error e) lr
      = ({ st with uploading := false },
         [Request.uploadPdf f.name f.size userId,
          Request.indexBook (jsReplaceOnce f.name ".pdf" "") userId false],
         UploadOutcome.genericFailure ("Upload failed: " ++ e.message)) := by
  simp [handleUpload, hf, hu]

/-- Witness for C1 (amended) at `physicsState` with error "boom". -/
theorem c1_amended_witness :
    handleUpload physicsState "user1" (Except.ok ())
        (Except.error { message := "boom" }) emptyListing
      = ({ physicsState with uploading := false },
         [Request.uploadPdf "physics.pdf" 1024 "user1",
          Request.indexBook "physics" "user1" false],
         UploadOutcome.genericFailure "Upload failed: boom") := by
  have h := c1_amended physicsState "user1" { name := "physics.pdf", size := 1024 }
    { message := "boom" } emptyListing rfl (by decide)
  exact h.trans (by decide)

/-! ## C2: classification of a processing-delete failure after a
successful collection delete -/

/-- Claim C2 counterexample: in the run where the collection delete
succeeds and the processing-service delete fails, `handleDelete` ends in
the same generic console-logged failure outcome an immediate
collection-delete failure produces — nothing identifies which side
succeeded — refuting the claim at this concrete input. -/
theorem c2_counterexample :
    (handleDelete physicsState "physics" "user1" true (Except.ok ())
        (Except.error { message := "boom" }) emptyListing).2.2
      = DeleteOutcome.genericFailure "boom"
    ∧ (handleDelete physicsState "physics" "user1" true (Except.ok ())
        (Except.error { message := "boom" }) emptyListing).2.2
      = (handleDelete physicsState "physics" "user1" true
          (Except.error { message := "boom" }) (Except.ok ()) emptyListing).2.2 := by
  constructor <;> rfl

/-- Claim C2 (amended): in every run where the collection delete succeeds
and the processing-service delete fails, the handler takes the single
generic catch path (a `console.error` with the error's message), with no
distinct partial-deletion report and no information about which side
succeeded; the component state is unchanged and no refresh request is
issued. -/
theorem c2_amended (st : HomeState) (bookName userId : String) (e : NetError)
    (lr : Except NetError ListResponse) :
    handleDelete st bookName userId true (Except.ok ()) (Except.error e) lr
      = (st,
         [Request.deleteCollection bookName,
          Request.deleteProcessedBook bookName userId],
         DeleteOutcome.genericFailure e.message) := by
  rfl

/-! ## C3: local transcript after a session clear -/

/-- Claim C3 counterexample: when the server-side session-deletion call
fails, `handleClearSession` leaves the local transcript untouched (the
`setMessages([])` sits after the awaited call inside the try block), so
after the call resolves with a failure the transcript is not empty,
refuting the claim at this concrete input. -/
theorem c3_counterexample :
    ((handleClearSession chatStateA true
        (Except.error { message := "boom" })).1).messages ≠ [] := by
  decide

/-- Claim C3 (amended): the local transcript is emptied only when the
server-side session deletion succeeds; when the call fails the entire
chat state is left unchanged (only the failure is logged). -/
theorem c3_amended (st : ChatState) (e : NetError) :
    ((handleClearSession st true (Except.ok ())).1).messages = []
    ∧ (handleClearSession st true (Except.error e)).1 = st := by
  constructor <;> rfl

/-! ## C4: transcript after a failed send -/

/-- Claim C4: for every send of a message that passes the input guard and
whose network call fails, the resulting transcript is the old transcript
with the user-role message (the typed input, appended optimistically and
never rolled back) followed by exactly one system-role failure message;
in particular no assistant message is appended for that turn. -/
theorem c4_failed_send_transcript (st : ChatState) (e : NetError)
    (hin : jsTrim st.input ≠ "") (hu : st.userId ≠ "") :
    (handleSend st (Except.error e)).1.messages
      = st.messages ++
          [{ role := "user", content := st.input },
           { role := "system", content := "Error: Failed to get response from agent." }] := by
  simp [handleSend, hin, hu]

/-- Witness for C4 at `chatStateA` with a failing call. -/
theorem c4_failed_send_transcript_witness :
    (handleSend chatStateA (Except.error { message := "boom" })).1.messages
      = [{ role := "user", content := "hello" },
         { role := "user", content := "What is a pole?" },
         { role := "system", content := "Error: Failed to get response from agent." }] := by
  have h := c4_failed_send_transcript chatStateA { message := "boom" }
    (by decide) (by decide)
  exact h.trans (by decide)

/-! ## C5: ordering of the two deletes and catalog absence -/

/-- Claim C5: in every `handleDelete` run, the processing-service delete
is issued only in runs where the collection delete resolved successfully,
and whenever any request is issued at all the collection delete is the
first one; and (indexing service modelled from the spec) immediately after
a successful collection delete the service's listing contains no
collection with the deleted name, independently of the processing-service
delete's fate. -/
theorem c5_delete_ordering (st : HomeState) (bookName userId : String)
    (confirmResult : Bool) (dcr dpr : Except NetError Unit)
    (lr : Except NetError ListResponse) (srv : List Collection) :
    (∀ b u, Request.deleteProcessedBook b u ∈
        (handleDelete st bookName userId confirmResult dcr dpr lr).2.1 →
        dcr = Except.ok ())
    ∧ ((handleDelete st bookName userId confirmResult dcr dpr lr).2.1 = []
       ∨ (handleDelete st bookName userId confirmResult dcr dpr lr).2.1.head?
           = some (Request.deleteCollection bookName))
    ∧ (∀ c ∈ indexingListCollections (indexingDeleteCollection srv bookName),
        c.name ≠ bookName) := by
  refine ⟨?_, ?_, ?_⟩
  · intro b u hmem
    cases confirmResult with
    | false => simp [handleDelete] at hmem
    | true =>
      cases dcr with
      | ok v => rfl
      | error e => simp [handleDelete] at hmem
  · cases confirmResult with
    | false => exact Or.inl rfl
    | true =>
      cases dcr with
      | ok v =>
        cases dpr with
        | ok w => exact Or.inr rfl
        | error e => exact Or.inr rfl
      | error e => exact Or.inr rfl
  · intro c hc
    simp only [indexingListCollections, indexingDeleteCollection,
      List.mem_filter] at hc
    simpa using hc.2

/-- Witness for C5: a concrete run where the collection delete succeeds
and the processing-service delete fails; the first issued request is the
collection delete, and the modelled indexing-service listing no longer
contains the book. -/
theorem c5_delete_ordering_witness :
    (handleDelete physicsState "physics" "user1" true (Except.ok ())
        (Except.error { message := "boom" }) emptyListing).2.1.head?
      = some (Request.deleteCollection "physics")
    ∧ ({ name := "physics" } : Collection) ∉
        indexingListCollections
          (indexingDeleteCollection
            [{ name := "physics" }, { name := "calculus" }] "physics") := by
  have h := c5_delete_ordering physicsState "physics" "user1" true (Except.ok ())
    (Except.error { message := "boom" }) emptyListing
    [{ name := "physics" }, { name := "calculus" }]
  refine ⟨?_, ?_⟩
  · rcases h.2.1 with h0 | h1
    · exact absurd h0 (by decide)
    · exact h1
  · intro hmem
    exact (h.2.2 _ hmem) rfl

/-! ## C6: the book name sent to the index-book operation -/

/-- Claim C6 counterexample: uploading a file named `a.pdfb.pdf`, the
index-book request carries `ab.pdf` — the name with the first occurrence
of the substring ".pdf" removed — while the name with its extension
stripped is `a.pdfb`; the two differ, refuting the claim at this concrete
input. -/
theorem c6_counterexample :
    (handleUpload oddNameState "user1" (Except.ok ()) (Except.ok ())
        emptyListing).2.1
      = [Request.uploadPdf "a.pdfb.pdf" 7 "user1",
         Request.indexBook "ab.pdf" "user1" false,
         Request.listCollections]
    ∧ specStripExtension "a.pdfb.pdf" = "a.pdfb"
    ∧ ("ab.pdf" : String) ≠ "a.pdfb" := by
  refine ⟨rfl, rfl, by decide⟩

/-- Claim C6 (amended): the book name sent to the index-book operation
equals the selected file's name with the first occurrence of the substring
".pdf" removed (JavaScript `replace('.pdf', '')`), which coincides with
stripping the extension for names such as `physics.pdf` whose only
".pdf" is the final extension — on `physics.pdf` the derived name is
`physics`, matching the spec's example. -/
theorem c6_amended (st : HomeState) (userId : String) (f : JsFile)
    (ir : Except NetError Unit) (lr : Except NetError ListResponse)
    (hf : st.selectedFile = some f) (hu : userId ≠ "") :
    (handleUpload st userId (Except.ok ()) ir lr).2.1.get? 1
      = some (Request.indexBook (jsReplaceOnce f.name ".pdf" "") userId false)
    ∧ jsReplaceOnce "physics.pdf" ".pdf" "" = "physics"
    ∧ specStripExtension "physics.pdf" = "physics" := by
  refine ⟨?_, rfl, rfl⟩
  cases ir with
  | ok v => simp [handleUpload, hf, hu]
  | error e => simp [handleUpload, hf, hu]

/-- Witness for C6 (amended) at `physicsState`. -/
theorem c6_amended_witness :
    (handleUpload physicsState "user1" (Except.ok ()) (Except.ok ())
        emptyListing).2.1.get? 1
      = some (Request.indexBook "physics" "user1" false) := by
  have h := c6_amended physicsState "user1" { name := "physics.pdf", size := 1024 }
    (Except.ok ()) emptyListing rfl (by decide)
  exact h.1.trans (by decide)

/-! ## C7: validation before any network request -/

/-- Claim C7 counterexample: with a present but zero-byte file selected,
`handleUpload` is not rejected — the upload request is issued as the first
request of the run — refuting the claim that an empty file is rejected
before any network request. -/
theorem c7_counterexample :
    (handleUpload zeroByteState "user1" (Except.ok ()) (Except.ok ())
        emptyListing).2.1.get? 0
      = some (Request.uploadPdf "empty.pdf" 0 "user1") := by
  rfl

/-- Claim C7 (amended): only the absence of a selected file or of the
identity makes `handleUpload` an early no-op with no request issued; a
present file is never size-checked, so even a zero-byte file leads to an
upload request being issued first. -/
theorem c7_amended (st : HomeState) (userId : String)
    (ur ir : Except NetError Unit) (lr : Except NetError ListResponse) :
    (st.selectedFile = none ∨ userId = "" →
       handleUpload st userId ur ir lr = (st, [], UploadOutcome.noop))
    ∧ (∀ f, st.selectedFile = some f → userId ≠ "" →
        (handleUpload st userId ur ir lr).2.1.get? 0
          = some (Request.uploadPdf f.name f.size userId)) := by
  constructor
  · intro h
    rcases h with h | h
    · simp [handleUpload, h]
    · cases hsel : st.selectedFile with
      | none => simp [handleUpload, hsel]
      | some f => simp [handleUpload, hsel, h]
  · intro f hf hu
    cases ur with
    | ok v =>
      cases ir with
      | ok w => simp [handleUpload, hf, hu]
      | error e => simp [handleUpload, hf, hu]
    | error e => simp [handleUpload, hf, hu]

/-- Witness for C7 (amended): with no file selected the run is a no-op
issuing nothing; with the zero-byte file selected the upload request is
issued. -/
theorem c7_amended_witness :
    handleUpload noFileState "user1" (Except.ok ()) (Except.ok ()) emptyListing
      = (noFileState, [], UploadOutcome.noop)
    ∧ (handleUpload zeroByteState "user1" (Except.ok ()) (Except.ok ())
        emptyListing).2.1.get? 0
      = some (Request.uploadPdf "empty.pdf" 0 "user1") := by
  constructor
  · exact (c7_amended noFileState "user1" (Except.ok ()) (Except.ok ())
      emptyListing).1 (Or.inl rfl)
  · exact (c7_amended zeroByteState "user1" (Except.ok ()) (Except.ok ())
      emptyListing).2 { name := "empty.pdf", size := 0 } rfl (by decide)

/-! ## C8: context scoping of the outgoing chat request -/

/-- Claim C8: every send that passes the input and identity guards issues
exactly one chat request, whose `db_name` field is the currently selected
collection — `some "bookA"` when that collection is selected, `none`
(serialised as null) when no collection is selected. -/
theorem c8_chat_request_db_name (st : ChatState)
    (r : Except NetError AgentResponse)
    (hin : jsTrim st.input ≠ "") (hu : st.userId ≠ "") :
    (handleSend st r).2
      = [Request.chat st.userId st.userId st.input st.selectedCollection] := by
  cases r with
  | ok resp => simp [handleSend, hin, hu]
  | error e => simp [handleSend, hin, hu]

/-- Witness for C8: with "bookA" selected the request carries
`db_name = some "bookA"`; with no selection it carries `none`. -/
theorem c8_chat_request_db_name_witness :
    (handleSend chatStateA
        (Except.ok { response := "hi", artifacts := none })).2
      = [Request.chat "user1" "user1" "What is a pole?" (some "bookA")]
    ∧ (handleSend chatStateNone
        (Except.ok { response := "hi", artifacts := none })).2
      = [Request.chat "user1" "user1" "What is a pole?" none] := by
  constructor
  · exact c8_chat_request_db_name chatStateA
      (Except.ok { response := "hi", artifacts := none }) (by decide) (by decide)
  · exact c8_chat_request_db_name chatStateNone
      (Except.ok { response := "hi", artifacts := none }) (by decide) (by decide)

/-! ## C9: rejected sends are complete no-ops -/

/-- Claim C9: when the typed input trims to the empty string or the
identity is not yet available, `handleSend` returns the state unchanged
(transcript, input field, loading flag, selection all untouched) and
issues no request. -/
theorem c9_send_noop (st : ChatState) (r : Except NetError AgentResponse)
    (h : jsTrim st.input = "" ∨ st.userId = "") :
    handleSend st r = (st, []) := by
  rcases h with h | h <;> simp [handleSend, h]

/-- Witness for C9: a whitespace-only input is a no-op, and so is a send
attempted before the identity has loaded. -/
theorem c9_send_noop_witness :
    handleSend { chatStateA with input := "   " }
        (Except.ok { response := "hi", artifacts := none })
      = ({ chatStateA with input := "   " }, [])
    ∧ handleSend { chatStateA with userId := "" }
        (Except.ok { response := "hi", artifacts := none })
      = ({ chatStateA with userId := "" }, []) := by
  constructor
  · exact c9_send_noop { chatStateA with input := "   " }
      (Except.ok { response := "hi", artifacts := none }) (Or.inl (by decide))
  · exact c9_send_noop { chatStateA with userId := "" }
      (Except.ok { response := "hi", artifacts := none }) (Or.inr rfl)

/-! ## C10: a failed collection delete stops the run -/

/-- Claim C10: in every `handleDelete` run whose collection-delete request
rejects, the only request issued is that collection delete — no
processing-service delete and no catalog-refresh listing — and the
component state (in particular the displayed book list) is unchanged. -/
theorem c10_failed_collection_delete (st : HomeState) (bookName userId : String)
    (e : NetError) (dpr : Except NetError Unit)
    (lr : Except NetError ListResponse) :
    handleDelete st bookName userId true (Except.error e) dpr lr
      = (st, [Request.deleteCollection bookName],
         DeleteOutcome.genericFailure e.message) := by
  rfl

end Spec2Proof
